import Mathlib

/-!
Verification development for the synthetic-experiment pipeline in `src/rpy2.py`.

The script's own logic is modelled shallowly:

* `simulate_data` (lines 186-289) becomes a Lean function over a record of
  abstract numpy-draw primitives (`NumpyRNG`).  numpy's global Mersenne
  Twister is modelled as an opaque state `ℕ`; `np.random.seed(seed)` is
  `g.init seed`, and every draw threads that single state, in source order.
  Exact rationals `ℚ` stand in for the script's floats, `ℤ` for its ints.
* Python exceptions are modelled with `Except`: a negative `size` given to
  `np.random.randint` raises (`SimErr.negativeDimension`), and the
  adjustment loops' reads `llm_usage[i]` / `herbal_blend[i]` past the end of
  the tiled assignment arrays raise (`SimErr.indexOutOfBounds`).
* `preprocess_data` (292-310), `perform_regression_analysis` (336-352),
  `run_IPMA_in_r` (50-112) and `perform_sem_ipma` (118-143) are embedded
  below, with their external collaborators (scikit-learn's square root,
  statsmodels' OLS solver, the R IPMA package, semopy) as abstract
  parameters, keeping only the control flow the script itself contributes.
-/

/-- Errors that the Python code in `simulate_data` can raise: numpy's
`ValueError: negative dimensions are not allowed` for a negative `size`,
and `IndexError` from `llm_usage[i]` when `i` is past the end of the tiled
assignment array. -/
inductive SimErr where
  | negativeDimension
  | indexOutOfBounds
deriving DecidableEq, Repr, Inhabited

/-- Values of the `gender` column, drawn from
`np.random.choice(['Male', 'Female', 'Other'])` (line 203). -/
inductive Gender where
  | Male
  | Female
  | Other
deriving DecidableEq, BEq, Repr, Inhabited

/-- Values of the `programming_experience` column, drawn from
`np.random.choice(['Beginner', 'Intermediate', 'Advanced'])` (lines 204-206). -/
inductive ProgExp where
  | Beginner
  | Intermediate
  | Advanced
deriving DecidableEq, BEq, Repr, Inhabited

/-- Decode of `np.random.choice` over the gender array; index 0 is `'Male'`. -/
def genderOfFin : Fin 3 → Gender
  | ⟨0, _⟩ => Gender.Male
  | ⟨1, _⟩ => Gender.Female
  | ⟨2, _⟩ => Gender.Other

/-- Decode of `np.random.choice` over the experience array; index 0 is `'Beginner'`. -/
def expOfFin : Fin 3 → ProgExp
  | ⟨0, _⟩ => ProgExp.Beginner
  | ⟨1, _⟩ => ProgExp.Intermediate
  | ⟨2, _⟩ => ProgExp.Advanced

/-- Abstract model of numpy's seeded global generator: `init` is
`np.random.seed`, and each draw primitive consumes the opaque state `ℕ`
and returns one value plus the advanced state.  `simulate_data` is proved
against every such generator, so nothing depends on particular draw
values. -/
structure NumpyRNG where
  init : ℤ → ℕ
  randint : ℤ → ℤ → ℕ → ℤ × ℕ
  choice3 : ℕ → Fin 3 × ℕ
  normal : ℚ → ℚ → ℕ → ℚ × ℕ
  uniform : ℚ → ℚ → ℕ → ℚ × ℕ

/-- Draw `n` values with primitive `f`, threading the generator state;
models one `np.random.xxx(..., size=n)` call. -/
def drawN (f : ℕ → α × ℕ) : ℕ → ℕ → List α × ℕ
  | 0, s => ([], s)
  | n + 1, s =>
    let p := f s
    let rest := drawN f n p.2
    (p.1 :: rest.1, rest.2)

/-- Python list repetition: `[pattern] * k` (lines 209-210). -/
def tile (pat : List ℤ) (k : ℕ) : List ℤ :=
  (List.replicate k pat).flatten

/-- Model of `np.maximum` on rationals (written with an explicit `if` so that
closed runs evaluate by kernel reduction). -/
def ratMax (a b : ℚ) : ℚ :=
  if a ≤ b then b else a

/-- Model of `np.minimum` on rationals. -/
def ratMin (a b : ℚ) : ℚ :=
  if a ≤ b then a else b

/-- Model of `np.maximum` on integers (line 236). -/
def intMax (a b : ℤ) : ℤ :=
  if a ≤ b then b else a

/-- Model of `np.clip(x, lo, hi)`, documented by numpy as
`min(max(x, lo), hi)` (lines 234-235). -/
def clip (x lo hi : ℚ) : ℚ :=
  ratMin (ratMax x lo) hi

/-- The group-membership reads done by both adjustment loops
(lines 223-231 and 255-262): for each `i` in `range(n)` read
`llm_usage[i]` and `herbal_blend[i]`, raising `IndexError` past the end of
the tiled arrays (which have length `4 * (n // 4)`, not `n`). -/
def flagsUpTo (llm herb : List ℤ) : ℕ → Except SimErr (List (Bool × Bool))
  | 0 => Except.ok []
  | n + 1 =>
    match flagsUpTo llm herb n, llm.get? n, herb.get? n with
    | Except.ok fs, some a, some b => Except.ok (fs ++ [(a == 1, b == 1)])
    | Except.ok _, _, _ => Except.error SimErr.indexOutOfBounds
    | Except.error e, _, _ => Except.error e

/-- One row set of the simulated dataset: the DataFrame built at
lines 265-287, one field per column, in column order. -/
structure Table where
  participantID : List ℤ
  age : List ℤ
  gender : List Gender
  programmingExperience : List ProgExp
  llmUsage : List ℤ
  herbalBlend : List ℤ
  initialSelfEfficacy : List ℚ
  finalSelfEfficacy : List ℚ
  initialAnxiety : List ℚ
  finalAnxiety : List ℚ
  errorsIdentified : List ℤ
  completionTime : List ℚ
  performance : List ℚ
  eegAlpha : List ℚ
  eegBeta : List ℚ
  ecgHR : List ℚ
  edaSCR : List ℚ
  pogFixations : List ℤ
  pogFixationDuration : List ℚ
  pogPupilDiameter : List ℚ
  pogBlinkRate : List ℚ
deriving DecidableEq, Repr, Inhabited

/-- Embedding of `simulate_data(n_participants, seed)` (lines 186-289), as a function of
the abstract generator `g`, the two arguments, and the incoming global
numpy state (which line 199 `np.random.seed(seed)` discards).  Returns the
result (table or raised error) together with the final global state.
Draws happen in source order: age, gender, experience, initial
self-efficacy, initial anxiety, errors, completion time, then after the
first adjustment loop the seven physiological signals.  The first
adjustment loop raises before the physiological draws, so on an index
error the state returned is the one after the completion-time draw. -/
def simulate_data (g : NumpyRNG) (n_participants seed : ℤ) (globalState : ℕ) :
    Except SimErr Table × ℕ :=
  let s0 := g.init seed
  if n_participants < 0 then (Except.error SimErr.negativeDimension, s0)
  else
    let n := n_participants.toNat
    let ageP := drawN (g.randint 18 30) n s0
    let genderP := drawN g.choice3 n ageP.2
    let expP := drawN g.choice3 n genderP.2
    let llm_usage := tile [1, 1, 0, 0] (n / 4)
    let herbal_blend := tile [1, 0, 1, 0] (n / 4)
    let iseP := drawN (g.normal 3.5 0.5) n expP.2
    let ianxP := drawN (g.normal 2.5 0.6) n iseP.2
    let errP := drawN (g.randint 5 20) n ianxP.2
    let ctP := drawN (g.uniform 180 400) n errP.2
    match flagsUpTo llm_usage herbal_blend n with
    | Except.error e => (Except.error e, ctP.2)
    | Except.ok flags =>
      let fse := (List.zipWith
        (fun x fl => x + if fl.1 then 0.5 else 0) iseP.1 flags).map
          (fun x => clip x 1 5)
      let fanx := (List.zipWith
        (fun x fl => x - (if fl.1 then 0.4 else 0) -
          (if fl.2 then 0.3 else 0)) ianxP.1 flags).map
          (fun x => clip x 1 4)
      let errs := (List.zipWith
        (fun (e : ℤ) fl => e + (if fl.1 then 3 else 0) +
          (if fl.2 then 1 else 0)) errP.1 flags).map (fun e => intMax 0 e)
      let ct := (List.zipWith
        (fun c fl => c - if fl.1 then 15 else 0) ctP.1 flags).map
          (fun c => ratMax 60 c)
      let perf := List.zipWith
        (fun (e : ℤ) (c : ℚ) => ((e : ℚ) + (500 - c) / 10) / 2) errs ct
      let eegAP := drawN (g.normal 10 2) n ctP.2
      let eegBP := drawN (g.normal 18 3) n eegAP.2
      let hrP := drawN (g.normal 75 10) n eegBP.2
      let scrP := drawN (g.normal 0.5 0.2) n hrP.2
      let fixP := drawN (g.randint 20 100) n scrP.2
      let fixdP := drawN (g.uniform 200 500) n fixP.2
      let pupP := drawN (g.normal 3.5 0.5) n fixdP.2
      let blinkP := drawN (g.uniform 10 30) n pupP.2
      (Except.ok
        { participantID := (List.range n).map (fun i => (i : ℤ) + 1)
          age := ageP.1
          gender := genderP.1.map genderOfFin
          programmingExperience := expP.1.map expOfFin
          llmUsage := llm_usage
          herbalBlend := herbal_blend
          initialSelfEfficacy := iseP.1
          finalSelfEfficacy := fse
          initialAnxiety := ianxP.1
          finalAnxiety := fanx
          errorsIdentified := errs
          completionTime := ct
          performance := perf
          eegAlpha := eegAP.1
          eegBeta := List.zipWith
            (fun x fl => x + if fl.1 then 2 else 0) eegBP.1 flags
          ecgHR := List.zipWith
            (fun x fl => x - if fl.2 then 5 else 0) hrP.1 flags
          edaSCR := List.zipWith
            (fun x fl => x - if fl.2 then 0.1 else 0) scrP.1 flags
          pogFixations := List.zipWith
            (fun x fl => x - if fl.1 then 5 else 0) fixP.1 flags
          pogFixationDuration := List.zipWith
            (fun x fl => x + if fl.1 then 50 else 0) fixdP.1 flags
          pogPupilDiameter := pupP.1
          pogBlinkRate := blinkP.1 }, blinkP.2)

/-- Predicate: `range(1, n_participants + 1)` has as many entries as each drawn
column: the generated table is rectangular with `n` rows. -/
def Table.Nrows (t : Table) (n : ℕ) : Prop :=
  t.participantID.length = n ∧ t.age.length = n ∧ t.gender.length = n ∧
  t.programmingExperience.length = n ∧ t.llmUsage.length = n ∧
  t.herbalBlend.length = n ∧ t.initialSelfEfficacy.length = n ∧
  t.finalSelfEfficacy.length = n ∧ t.initialAnxiety.length = n ∧
  t.finalAnxiety.length = n ∧ t.errorsIdentified.length = n ∧
  t.completionTime.length = n ∧ t.performance.length = n ∧
  t.eegAlpha.length = n ∧ t.eegBeta.length = n ∧ t.ecgHR.length = n ∧
  t.edaSCR.length = n ∧ t.pogFixations.length = n ∧
  t.pogFixationDuration.length = n ∧ t.pogPupilDiameter.length = n ∧
  t.pogBlinkRate.length = n

instance (t : Table) (n : ℕ) : Decidable (t.Nrows n) := by
  unfold Table.Nrows; infer_instance

/-- Column labels of the generated DataFrame, in construction order
(lines 265-287). -/
def Table.columns : List String :=
  ["ParticipantID", "Age", "Gender", "ProgrammingExperience", "LLMUsage",
   "HerbalBlend", "InitialSelfEfficacy", "FinalSelfEfficacy",
   "InitialAnxiety", "FinalAnxiety", "ErrorsIdentified", "CompletionTime",
   "Performance", "EEGAlpha", "EEGBeta", "ECG_HR", "EDA_SCR",
   "POGFixations", "POGFixationDuration", "POGPupilDiameter",
   "POGBlinkRate"]

/-- Mean of a column, as computed by `StandardScaler` (exact arithmetic in
place of floats). -/
def colMean (xs : List ℚ) : ℚ :=
  xs.sum / xs.length

/-- Population variance (`ddof = 0`) of a column: the variance
`StandardScaler.fit` computes. -/
def popVar (xs : List ℚ) : ℚ :=
  ((xs.map (fun x => (x - colMean xs) ^ 2)).sum) / xs.length

/-- Embedding of `StandardScaler.fit_transform` on one column: subtract the column
mean, divide by the square root of the population variance (`sq` is the
library's square-root routine, kept abstract because `ℚ` has no exact
square root); a zero-variance column gets scale 1
(scikit-learn's `_handle_zeros_in_scale`). -/
def standardScale (sq : ℚ → ℚ) (xs : List ℚ) : List ℚ :=
  let m := colMean xs
  let v := popVar xs
  let s := if v = 0 then 1 else sq v
  xs.map (fun x => (x - m) / s)

/-- The table produced by `preprocess_data` (lines 292-310): identity and
raw outcome columns are gone, `Gender` and `ProgrammingExperience` are
replaced by one-hot indicator columns (pandas `get_dummies` appends them,
categories in sorted order, as boolean columns), every remaining numeric
column is standardized, and `Performance` is concatenated back
unchanged. -/
structure ProcessedTable where
  age : List ℚ
  llmUsage : List ℚ
  herbalBlend : List ℚ
  initialSelfEfficacy : List ℚ
  finalSelfEfficacy : List ℚ
  initialAnxiety : List ℚ
  finalAnxiety : List ℚ
  eegAlpha : List ℚ
  eegBeta : List ℚ
  ecgHR : List ℚ
  edaSCR : List ℚ
  pogFixations : List ℚ
  pogFixationDuration : List ℚ
  pogPupilDiameter : List ℚ
  pogBlinkRate : List ℚ
  gender_Female : List Bool
  gender_Male : List Bool
  gender_Other : List Bool
  progExp_Advanced : List Bool
  progExp_Beginner : List Bool
  progExp_Intermediate : List Bool
  performance : List ℚ
deriving DecidableEq, Repr, Inhabited

/-- Column labels of the preprocessed DataFrame: the feature columns in
their surviving order, the appended dummy columns, then `Performance`
from the final `pd.concat` (line 309). -/
def ProcessedTable.columns : List String :=
  ["Age", "LLMUsage", "HerbalBlend", "InitialSelfEfficacy",
   "FinalSelfEfficacy", "InitialAnxiety", "FinalAnxiety", "EEGAlpha",
   "EEGBeta", "ECG_HR", "EDA_SCR", "POGFixations", "POGFixationDuration",
   "POGPupilDiameter", "POGBlinkRate", "Gender_Female", "Gender_Male",
   "Gender_Other", "ProgrammingExperience_Advanced",
   "ProgrammingExperience_Beginner",
   "ProgrammingExperience_Intermediate", "Performance"]

/-- Error that `preprocess_data` can raise: scikit-learn's
`StandardScaler.fit_transform` rejects an input with zero rows
(`check_array` with `ensure_min_samples=1` raises `ValueError`), a
DataShape failure in the spec's taxonomy. -/
inductive PrepErr where
  | zeroSamples
deriving DecidableEq, Repr

/-- The table built by the success path of `preprocess_data(data)`
(lines 292-310): drop `ParticipantID`, `ErrorsIdentified`,
`CompletionTime`, `Performance` from the feature set, one-hot encode the
two categorical columns, standardize the numeric feature columns with a
scaler fitted on this same table, and concatenate the untouched
`Performance` column back on. -/
def preprocess_core (sq : ℚ → ℚ) (t : Table) : ProcessedTable :=
  { age := standardScale sq (t.age.map (fun (i : ℤ) => (i : ℚ)))
    llmUsage := standardScale sq (t.llmUsage.map (fun (i : ℤ) => (i : ℚ)))
    herbalBlend := standardScale sq (t.herbalBlend.map (fun (i : ℤ) => (i : ℚ)))
    initialSelfEfficacy := standardScale sq t.initialSelfEfficacy
    finalSelfEfficacy := standardScale sq t.finalSelfEfficacy
    initialAnxiety := standardScale sq t.initialAnxiety
    finalAnxiety := standardScale sq t.finalAnxiety
    eegAlpha := standardScale sq t.eegAlpha
    eegBeta := standardScale sq t.eegBeta
    ecgHR := standardScale sq t.ecgHR
    edaSCR := standardScale sq t.edaSCR
    pogFixations := standardScale sq (t.pogFixations.map (fun (i : ℤ) => (i : ℚ)))
    pogFixationDuration := standardScale sq t.pogFixationDuration
    pogPupilDiameter := standardScale sq t.pogPupilDiameter
    pogBlinkRate := standardScale sq t.pogBlinkRate
    gender_Female := t.gender.map (fun gv => gv == Gender.Female)
    gender_Male := t.gender.map (fun gv => gv == Gender.Male)
    gender_Other := t.gender.map (fun gv => gv == Gender.Other)
    progExp_Advanced :=
      t.programmingExperience.map (fun pv => pv == ProgExp.Advanced)
    progExp_Beginner :=
      t.programmingExperience.map (fun pv => pv == ProgExp.Beginner)
    progExp_Intermediate :=
      t.programmingExperience.map (fun pv => pv == ProgExp.Intermediate)
    performance := t.performance }

/-- Embedding of `preprocess_data(data)` (lines 292-310).  The scaler at
line 308 is fitted on the numeric feature frame, whose row count is the
input frame's row count (`t.age.length` — every column of a rectangular
frame has this length); on a 0-row frame scikit-learn raises rather than
return a table, so the embedding returns `Except.error` there and the
preprocessed table otherwise. -/
def preprocess_data (sq : ℚ → ℚ) (t : Table) :
    Except PrepErr ProcessedTable :=
  if t.age.length = 0 then Except.error PrepErr.zeroSamples
  else Except.ok (preprocess_core sq t)

/-- The numeric feature columns of the input table, as the scaler sees
them (`select_dtypes(include=np.number)` at line 306: the integer and
float columns of the feature set; the boolean dummy columns are not
numeric). -/
def numericFeatureSources (t : Table) : List (List ℚ) :=
  [t.age.map (fun (i : ℤ) => (i : ℚ)), t.llmUsage.map (fun (i : ℤ) => (i : ℚ)),
   t.herbalBlend.map (fun (i : ℤ) => (i : ℚ)), t.initialSelfEfficacy,
   t.finalSelfEfficacy, t.initialAnxiety, t.finalAnxiety, t.eegAlpha,
   t.eegBeta, t.ecgHR, t.edaSCR, t.pogFixations.map (fun (i : ℤ) => (i : ℚ)),
   t.pogFixationDuration, t.pogPupilDiameter, t.pogBlinkRate]

/-- The numeric feature columns of the preprocessed table (the standardized
ones; `Performance` is the target, not a feature). -/
def numericFeatureCols (p : ProcessedTable) : List (List ℚ) :=
  [p.age, p.llmUsage, p.herbalBlend, p.initialSelfEfficacy,
   p.finalSelfEfficacy, p.initialAnxiety, p.finalAnxiety, p.eegAlpha,
   p.eegBeta, p.ecgHR, p.edaSCR, p.pogFixations, p.pogFixationDuration,
   p.pogPupilDiameter, p.pogBlinkRate]

/-- Row count of the preprocessed table. -/
def ProcessedTable.Nrows (p : ProcessedTable) (n : ℕ) : Prop :=
  p.age.length = n ∧ p.llmUsage.length = n ∧ p.herbalBlend.length = n ∧
  p.initialSelfEfficacy.length = n ∧ p.finalSelfEfficacy.length = n ∧
  p.initialAnxiety.length = n ∧ p.finalAnxiety.length = n ∧
  p.eegAlpha.length = n ∧ p.eegBeta.length = n ∧ p.ecgHR.length = n ∧
  p.edaSCR.length = n ∧ p.pogFixations.length = n ∧
  p.pogFixationDuration.length = n ∧ p.pogPupilDiameter.length = n ∧
  p.pogBlinkRate.length = n ∧ p.gender_Female.length = n ∧
  p.gender_Male.length = n ∧ p.gender_Other.length = n ∧
  p.progExp_Advanced.length = n ∧ p.progExp_Beginner.length = n ∧
  p.progExp_Intermediate.length = n ∧ p.performance.length = n

instance (p : ProcessedTable) (n : ℕ) : Decidable (p.Nrows n) := by
  unfold ProcessedTable.Nrows; infer_instance

/-- The error kind the spec expects a rank-deficient fit to signal; the
Python function has no code path that produces it. -/
inductive FitError where
  | rankDeficient
deriving DecidableEq, Repr

/-- The design matrix built at lines 347-349: `dmatrices` on
`"Performance ~ LLMUsage + HerbalBlend + InitialSelfEfficacy +
InitialAnxiety"` yields an intercept column plus the four predictors
(`sm.add_constant` then skips, since a constant column is already
present). -/
def designMatrix (t : Table) : List (List ℚ) :=
  (List.range t.participantID.length).map (fun i =>
    [1, ((t.llmUsage.getD i 0 : ℤ) : ℚ), ((t.herbalBlend.getD i 0 : ℤ) : ℚ),
     t.initialSelfEfficacy.getD i 0, t.initialAnxiety.getD i 0])

/-- statsmodels' OLS solver, abstracted: `sm.OLS(y, X).fit()` with the
default `method='pinv'` computes the parameters through a Moore-Penrose
pseudoinverse and returns a results object for every design matrix,
including rank-deficient ones (it never raises for rank deficiency), so
the boundary is a total function into an opaque results type `α`. -/
structure OLSBackend (α : Type) where
  fit : List (List ℚ) → List ℚ → α

/-- Embedding of `perform_regression_analysis(data)` (lines 336-352) with the default
`dependent_variable='Performance'`: build the design matrix, call the OLS
solver, return its results.  The `Except` layer is the Python exception
channel; the function has no failure branch, so it always returns
`Except.ok`. -/
def perform_regression_analysis (b : OLSBackend α) (t : Table) :
    Except FitError α :=
  Except.ok (b.fit (designMatrix t) t.performance)

/-- The state of the R/IPMA boundary (lines 28-48 and 50-112): `available`
is `IPMA_r` (`none` when the import-and-install at lines 38-48 failed);
a present backend is the `IPMA_r.IPMA` call, which may raise (`Except`).
`py2rpy` is the pandas-to-R conversion, `extract` the index-based result
unpacking of lines 79-111 (whose bare `except IndexError` does not cover
every exception, hence `Except`). -/
structure IpmaBackend (δ ρ φ : Type) where
  available : Option (δ → String → Except String ρ)
  py2rpy : Table → δ
  extract : ρ → List String → Except String φ

/-- The formula string built at line 70: `f"{y_column} ~ {'+'.join(x_columns)}"`. -/
def ipmaFormula (y_column : String) (x_columns : List String) : String :=
  y_column ++ " ~ " ++ String.intercalate "+" x_columns

/-- Embedding of `run_IPMA_in_r(data, x_columns, y_column)` (lines 50-112): if the R
package is unavailable return the empty dict (modelled `none`); convert
the data, run `IPMA_r.IPMA`, and on any exception from it return the
empty dict; otherwise unpack the R result into the populated dict
(`some`).  The outer `Except` is the Python exception channel of the
unpacking code, which the two failure branches never reach. -/
def run_IPMA_in_r (b : IpmaBackend δ ρ φ) (data : Table)
    (x_columns : List String) (y_column : String) :
    Except String (Option φ) :=
  match b.available with
  | none => Except.ok none
  | some ipmaCall =>
    let r_data := b.py2rpy data
    match ipmaCall r_data (ipmaFormula y_column x_columns) with
    | Except.error _ => Except.ok none
    | Except.ok res =>
      match b.extract res x_columns with
      | Except.error e => Except.error e
      | Except.ok d => Except.ok (some d)

/-- The semopy boundary (lines 116-143): `mkModel` is
`semopy.Model(model_specification)` (raises on an unparsable
specification — and that call sits outside the `try`), `fit` is
`model.fit(data)` (raises on fit failure; returns the fitted model),
`inspect` is `model.inspect(what='ipma', target='Performance')`. -/
structure SemBackend (μ ρ : Type) where
  mkModel : String → Except String μ
  fit : μ → Table → Except String μ
  inspect : μ → Except String ρ

/-- Embedding of `perform_sem_ipma(data, model_specification)` (lines 118-143):
construct the model (exceptions here propagate), fit it — on a fit
exception print the cause and return `(None, None)` — then run the IPMA
inspection — on an exception there return `(model, None)` — else return
`(model, ipma_results)`. -/
def perform_sem_ipma (b : SemBackend μ ρ) (data : Table)
    (model_specification : String) :
    Except String (Option μ × Option ρ) :=
  match b.mkModel model_specification with
  | Except.error e => Except.error e
  | Except.ok model =>
    match b.fit model data with
    | Except.error _ => Except.ok (none, none)
    | Except.ok fitted =>
      match b.inspect fitted with
      | Except.error _ => Except.ok (some fitted, none)
      | Except.ok ipma => Except.ok (some fitted, some ipma)

theorem drawN_length (f : ℕ → α × ℕ) : ∀ (n s : ℕ), (drawN f n s).1.length = n
  | 0, _ => rfl
  | n + 1, s => by simp [drawN, drawN_length f n]

theorem tile_length (pat : List ℤ) (k : ℕ) :
    (tile pat k).length = k * pat.length := by
  simp [tile, List.length_flatten, List.map_replicate, List.sum_replicate,
    smul_eq_mul]

theorem ratMax_eq_max (a b : ℚ) : ratMax a b = max a b := by
  rw [ratMax, max_def]

theorem ratMin_eq_min (a b : ℚ) : ratMin a b = min a b := by
  rw [ratMin, min_def]

theorem clip_mem (x lo hi : ℚ) (h : lo ≤ hi) :
    lo ≤ clip x lo hi ∧ clip x lo hi ≤ hi := by
  rw [clip, ratMax_eq_max, ratMin_eq_min]
  exact ⟨le_min (le_max_right x lo) h, min_le_right _ _⟩

theorem flagsUpTo_ok (llm herb : List ℤ) :
    ∀ n, n ≤ llm.length → n ≤ herb.length →
      ∃ fs, flagsUpTo llm herb n = Except.ok fs
  | 0, _, _ => ⟨[], rfl⟩
  | n + 1, h1, h2 => by
    obtain ⟨fs, hfs⟩ :=
      flagsUpTo_ok llm herb n (Nat.le_of_succ_le h1) (Nat.le_of_succ_le h2)
    have ha : llm.get? n = some (llm.get ⟨n, h1⟩) := List.get?_eq_get h1
    have hb : herb.get? n = some (herb.get ⟨n, h2⟩) := List.get?_eq_get h2
    exact ⟨fs ++ [(llm.get ⟨n, h1⟩ == 1, herb.get ⟨n, h2⟩ == 1)],
      by rw [flagsUpTo, hfs, ha, hb]⟩

theorem flagsUpTo_spec (llm herb : List ℤ) :
    ∀ n fs, flagsUpTo llm herb n = Except.ok fs →
      fs.length = n ∧ ∀ i, i < n →
        fs.get? i = some (llm.getD i 0 == 1, herb.getD i 0 == 1)
  | 0, fs, h => by
    simp only [flagsUpTo] at h
    cases h
    exact ⟨rfl, fun i hi => absurd hi (Nat.not_lt_zero i)⟩
  | n + 1, fs, h => by
    rw [flagsUpTo] at h
    cases hrec : flagsUpTo llm herb n with
    | error e => rw [hrec] at h; cases h
    | ok fs' =>
      rw [hrec] at h
      cases ha : llm.get? n with
      | none => rw [ha] at h; cases h
      | some a =>
        rw [ha] at h
        cases hb : herb.get? n with
        | none => rw [hb] at h; cases h
        | some b =>
          rw [hb] at h
          cases h
          obtain ⟨hlen, hget⟩ := flagsUpTo_spec llm herb n fs' hrec
          refine ⟨by simp [hlen], fun i hi => ?_⟩
          rcases Nat.lt_succ_iff_lt_or_eq.mp hi with hlt | rfl
          · rw [List.get?_append (by omega), hget i hlt]
          · rw [← hlen, List.get?_concat_length, List.getD_eq_getD_get?,
              List.getD_eq_getD_get?, hlen, ha, hb]
            rfl

theorem flagsUpTo_error (llm herb : List ℤ) (hlen : herb.length = llm.length) :
    ∀ n, llm.length < n →
      flagsUpTo llm herb n = Except.error SimErr.indexOutOfBounds
  | n + 1, h => by
    rcases Nat.lt_or_ge llm.length n with hlt | hge
    · rw [flagsUpTo, flagsUpTo_error llm herb hlen n hlt]
    · have heq : llm.length = n := Nat.le_antisymm (by omega) hge
      obtain ⟨fs, hfs⟩ := flagsUpTo_ok llm herb n (by omega) (by omega)
      have hnone : llm.get? n = none := List.get?_eq_none.mpr (by omega)
      rw [flagsUpTo, hfs, hnone]

theorem simulate_data_ok (g : NumpyRNG) (nP seed : ℤ) (s : ℕ) (t : Table)
    (h : (simulate_data g nP seed s).1 = Except.ok t) :
    ∃ flags,
      flagsUpTo (tile [1, 1, 0, 0] (nP.toNat / 4))
        (tile [1, 0, 1, 0] (nP.toNat / 4)) nP.toNat = Except.ok flags ∧
      t.llmUsage = tile [1, 1, 0, 0] (nP.toNat / 4) ∧
      t.herbalBlend = tile [1, 0, 1, 0] (nP.toNat / 4) ∧
      t.initialSelfEfficacy.length = nP.toNat ∧
      t.initialAnxiety.length = nP.toNat ∧
      flags.length = nP.toNat ∧
      t.finalSelfEfficacy = (List.zipWith
        (fun x fl => x + if fl.1 then 0.5 else 0)
        t.initialSelfEfficacy flags).map (fun x => clip x 1 5) ∧
      t.finalAnxiety = (List.zipWith
        (fun x fl => x - (if fl.1 then 0.4 else 0) -
          (if fl.2 then 0.3 else 0)) t.initialAnxiety flags).map
          (fun x => clip x 1 4) := by
  simp only [simulate_data] at h
  split at h
  · simp at h
  · split at h
    · simp at h
    · next flags heq =>
      simp only [Except.ok.injEq] at h
      subst h
      exact ⟨flags, heq, rfl, rfl, drawN_length _ _ _, drawN_length _ _ _,
        (flagsUpTo_spec _ _ _ _ heq).1, rfl, rfl⟩

/-- A concrete instance of the abstract generator, used to evaluate the
pipeline on closed inputs: every draw returns the distribution's first
argument and advances the state. -/
def trivRNG : NumpyRNG where
  init := fun _ => 0
  randint := fun lo _ s => (lo, s + 1)
  choice3 := fun s => (0, s + 1)
  normal := fun mu _ s => (mu, s + 1)
  uniform := fun lo _ s => (lo, s + 1)

/-- The table of a concrete `trivRNG` run with seed 42 (the run's raised
error, if any, is replaced by the default table). -/
def trivTable (nP : ℤ) : Table :=
  match (simulate_data trivRNG nP 42 0).1 with
  | Except.ok t => t
  | Except.error _ => default

/-- Claim C1: for every valid pair of arguments, two invocations of
`simulate_data` with identical arguments produce identical results
field-for-field — all randomness derives from the generator seeded at
line 199, so the result does not even depend on the incoming global
numpy state. -/
theorem simulate_data_deterministic (g : NumpyRNG) (n_participants seed : ℤ)
    (s₁ s₂ : ℕ) :
    (simulate_data g n_participants seed s₁).1 =
      (simulate_data g n_participants seed s₂).1 :=
  rfl

/-- Claim C2: every row of a table returned by `simulate_data` has
`FinalSelfEfficacy ∈ [1, 5]` and `FinalAnxiety ∈ [1, 4]`, whatever
additive adjustments were applied (lines 234-235). -/
theorem simulate_data_clip_invariant (g : NumpyRNG) (nP seed : ℤ) (s : ℕ)
    (t : Table) (h : (simulate_data g nP seed s).1 = Except.ok t) :
    (∀ x ∈ t.finalSelfEfficacy, 1 ≤ x ∧ x ≤ 5) ∧
    (∀ x ∈ t.finalAnxiety, 1 ≤ x ∧ x ≤ 4) := by
  obtain ⟨flags, -, -, -, -, -, -, hfse, hfanx⟩ :=
    simulate_data_ok g nP seed s t h
  constructor
  · rw [hfse]
    intro x hx
    obtain ⟨y, -, rfl⟩ := List.mem_map.mp hx
    exact clip_mem y 1 5 (by norm_num)
  · rw [hfanx]
    intro x hx
    obtain ⟨y, -, rfl⟩ := List.mem_map.mp hx
    exact clip_mem y 1 4 (by norm_num)

/-- Witness for C2 at the concrete run `n_participants = 4`, `seed = 42`. -/
theorem simulate_data_clip_invariant_witness :
    (1 ≤ (trivTable 4).finalSelfEfficacy.getD 0 0 ∧
      (trivTable 4).finalSelfEfficacy.getD 0 0 ≤ 5) ∧
    (1 ≤ (trivTable 4).finalAnxiety.getD 0 0 ∧
      (trivTable 4).finalAnxiety.getD 0 0 ≤ 4) :=
  have h := simulate_data_clip_invariant trivRNG 4 42 0 (trivTable 4)
    (by with_unfolding_all rfl)
  ⟨h.1 _ (by with_unfolding_all decide), h.2 _ (by with_unfolding_all decide)⟩

/-- Claim C3: the stored final self-efficacy and final anxiety of row `i`
equal `clip(baseline + flag-determined additive adjustments)`, with the
clip of lines 234-235 applied after the additive loop of lines 223-231 —
never to the baseline before the adjustment. -/
theorem simulate_data_adjust_then_clip (g : NumpyRNG) (nP seed : ℤ) (s : ℕ)
    (t : Table) (h : (simulate_data g nP seed s).1 = Except.ok t) :
    ∀ i, i < nP.toNat →
      t.finalSelfEfficacy.get? i =
        some (clip (t.initialSelfEfficacy.getD i 0 +
          (if t.llmUsage.getD i 0 = 1 then 0.5 else 0)) 1 5) ∧
      t.finalAnxiety.get? i =
        some (clip (t.initialAnxiety.getD i 0 -
          (if t.llmUsage.getD i 0 = 1 then 0.4 else 0) -
          (if t.herbalBlend.getD i 0 = 1 then 0.3 else 0)) 1 4) := by
  obtain ⟨flags, heq, hllm, hherb, hiseLen, hianxLen, hflagsLen, hfse, hfanx⟩ :=
    simulate_data_ok g nP seed s t h
  intro i hi
  have hfl := (flagsUpTo_spec _ _ _ _ heq).2 i hi
  have hise : i < t.initialSelfEfficacy.length := by rw [hiseLen]; exact hi
  have hianx : i < t.initialAnxiety.length := by rw [hianxLen]; exact hi
  have hgise : t.initialSelfEfficacy.get? i =
      some (t.initialSelfEfficacy.getD i 0) := by
    rw [List.get?_eq_get hise, List.getD_eq_get _ _ hise]
  have hgianx : t.initialAnxiety.get? i =
      some (t.initialAnxiety.getD i 0) := by
    rw [List.get?_eq_get hianx, List.getD_eq_get _ _ hianx]
  rw [hllm, hherb]
  constructor
  · rw [hfse, List.get?_map, List.get?_zipWith', hgise, hfl]
    simp [beq_iff_eq]
  · rw [hfanx, List.get?_map, List.get?_zipWith', hgianx, hfl]
    simp [beq_iff_eq]

/-- Witness for C3 at the concrete run `n_participants = 4`, `seed = 42`,
row 0. -/
theorem simulate_data_adjust_then_clip_witness :
    (trivTable 4).finalSelfEfficacy.get? 0 =
      some (clip ((trivTable 4).initialSelfEfficacy.getD 0 0 +
        (if (trivTable 4).llmUsage.getD 0 0 = 1 then 0.5 else 0)) 1 5) ∧
    (trivTable 4).finalAnxiety.get? 0 =
      some (clip ((trivTable 4).initialAnxiety.getD 0 0 -
        (if (trivTable 4).llmUsage.getD 0 0 = 1 then 0.4 else 0) -
        (if (trivTable 4).herbalBlend.getD 0 0 = 1 then 0.3 else 0)) 1 4) :=
  simulate_data_adjust_then_clip trivRNG 4 42 0 (trivTable 4)
    (by with_unfolding_all rfl) 0 (by decide)

/-- Claim C4: at `n_participants = 40`, `seed = 42`, the `LLMUsage` and
`HerbalBlend` columns each hold exactly 20 ones and 20 zeros (the tiled
assignment of lines 208-210). -/
theorem simulate_data_balanced_forty (g : NumpyRNG) (s : ℕ) (t : Table)
    (h : (simulate_data g 40 42 s).1 = Except.ok t) :
    t.llmUsage.count 1 = 20 ∧ t.llmUsage.count 0 = 20 ∧
    t.herbalBlend.count 1 = 20 ∧ t.herbalBlend.count 0 = 20 := by
  obtain ⟨flags, -, hllm, hherb, -⟩ := simulate_data_ok g 40 42 s t h
  rw [hllm, hherb]
  refine ⟨?_, ?_, ?_, ?_⟩ <;> decide

/-- Witness for C4: the concrete run with `trivRNG`. -/
theorem simulate_data_balanced_forty_witness :
    (trivTable 40).llmUsage.count 1 = 20 ∧
    (trivTable 40).llmUsage.count 0 = 20 ∧
    (trivTable 40).herbalBlend.count 1 = 20 ∧
    (trivTable 40).herbalBlend.count 0 = 20 :=
  simulate_data_balanced_forty trivRNG 0 (trivTable 40)
    (by with_unfolding_all rfl)

/-- Counterexample to claim C5: at the positive non-multiple-of-4 count 5
the generator does not return a truncated table — it raises (the first
adjustment loop reads `llm_usage[4]`, past the end of the length-4 tiled
array), contradicting "it does not error but returns a table". -/
theorem simulate_data_truncation_raises :
    (simulate_data trivRNG 5 42 0).1 = Except.error SimErr.indexOutOfBounds := by
  with_unfolding_all rfl

/-- Amended C5: `simulate_data` fails for negative counts (numpy rejects
the negative `size`), succeeds for every non-negative multiple of 4
(including 0, with an empty table), and fails with an index error — it
does not truncate — for every positive count that is not a multiple
of 4. -/
theorem simulate_data_error_profile (g : NumpyRNG) (nP seed : ℤ) (s : ℕ) :
    (nP < 0 →
      (simulate_data g nP seed s).1 = Except.error SimErr.negativeDimension) ∧
    (0 ≤ nP → nP % 4 = 0 →
      ∃ t, (simulate_data g nP seed s).1 = Except.ok t) ∧
    (0 < nP → nP % 4 ≠ 0 →
      (simulate_data g nP seed s).1 = Except.error SimErr.indexOutOfBounds) := by
  refine ⟨fun hneg => ?_, fun h0 h4 => ?_, fun h0 h4 => ?_⟩
  · simp only [simulate_data]
    rw [if_pos hneg]
  · have hlenL : (tile [1, 1, 0, 0] (nP.toNat / 4)).length = nP.toNat := by
      rw [tile_length]; simp; omega
    have hlenH : (tile [1, 0, 1, 0] (nP.toNat / 4)).length = nP.toNat := by
      rw [tile_length]; simp; omega
    obtain ⟨fs, hfs⟩ := flagsUpTo_ok _ _ nP.toNat hlenL.ge hlenH.ge
    simp only [simulate_data]
    rw [if_neg (by omega), hfs]
    exact ⟨_, rfl⟩
  · have hlt : (tile [1, 1, 0, 0] (nP.toNat / 4)).length < nP.toNat := by
      rw [tile_length]; simp; omega
    have hlenEq : (tile [1, 0, 1, 0] (nP.toNat / 4)).length =
        (tile [1, 1, 0, 0] (nP.toNat / 4)).length := by
      simp [tile_length]
    rw [simulate_data]
    simp only []
    rw [if_neg (by omega), flagsUpTo_error _ _ hlenEq nP.toNat hlt]

/-- Witness for the amended C5 at counts -3, 8 and 5. -/
theorem simulate_data_error_profile_witness :
    (simulate_data trivRNG (-3) 42 0).1 =
      Except.error SimErr.negativeDimension ∧
    (∃ t, (simulate_data trivRNG 8 42 0).1 = Except.ok t) ∧
    (simulate_data trivRNG 5 42 0).1 =
      Except.error SimErr.indexOutOfBounds :=
  ⟨(simulate_data_error_profile trivRNG (-3) 42 0).1 (by decide),
   (simulate_data_error_profile trivRNG 8 42 0).2.1 (by decide) (by decide),
   (simulate_data_error_profile trivRNG 5 42 0).2.2 (by decide) (by decide)⟩

theorem list_sum_map_sub_div (xs : List ℚ) (m s : ℚ) :
    (xs.map (fun x => (x - m) / s)).sum = (xs.sum - xs.length * m) / s := by
  induction xs with
  | nil => simp
  | cons a l ih =>
    simp only [List.map_cons, List.sum_cons, ih, List.length_cons]
    rw [div_add_div_same]
    congr 1
    push_cast
    ring

theorem list_sum_map_sq_div (xs : List ℚ) (m s : ℚ) :
    (xs.map (fun x => ((x - m) / s) ^ 2)).sum =
      (xs.map (fun x => (x - m) ^ 2)).sum / s ^ 2 := by
  induction xs with
  | nil => simp
  | cons a l ih =>
    simp only [List.map_cons, List.sum_cons, ih]
    rw [div_pow, div_add_div_same]

theorem standardScale_length (rt : ℚ → ℚ) (xs : List ℚ) :
    (standardScale rt xs).length = xs.length := by
  simp [standardScale]

theorem colMean_standardScale (rt : ℚ → ℚ) (xs : List ℚ) (hx : xs ≠ []) :
    colMean (standardScale rt xs) = 0 := by
  have hn : (xs.length : ℚ) ≠ 0 := by
    exact_mod_cast (List.length_pos.mpr hx).ne'
  simp only [standardScale, colMean]
  rw [list_sum_map_sub_div, List.length_map]
  rw [show (xs.length : ℚ) * (xs.sum / xs.length) = xs.sum from by
    field_simp]
  simp

theorem popVar_standardScale (rt : ℚ → ℚ) (xs : List ℚ) (hx : xs ≠ [])
    (hv : popVar xs ≠ 0)
    (hrt : rt (popVar xs) * rt (popVar xs) = popVar xs) :
    popVar (standardScale rt xs) = 1 := by
  have hn : (xs.length : ℚ) ≠ 0 := by
    exact_mod_cast (List.length_pos.mpr hx).ne'
  have hmean := colMean_standardScale rt xs hx
  unfold popVar
  rw [hmean]
  simp only [sub_zero, standardScale, List.map_map, List.length_map,
    Function.comp_def]
  rw [if_neg hv]
  rw [list_sum_map_sq_div]
  have hs2 : (rt (popVar xs)) ^ 2 = popVar xs := by rw [pow_two]; exact hrt
  rw [hs2]
  have hS : (xs.map (fun x => (x - colMean xs) ^ 2)).sum =
      popVar xs * xs.length := by
    unfold popVar
    field_simp
  rw [hS]
  field_simp

theorem numericFeatureSources_length (t : Table) (n : ℕ) (h : t.Nrows n) :
    ∀ xs ∈ numericFeatureSources t, xs.length = n := by
  obtain ⟨-, hage, -, -, hllm, hherb, hise, hfse, hianx, hfanx, -, -, -,
    hal, hbe, hhr, hscr, hfix, hfixd, hpup, hblink⟩ := h
  intro xs hxs
  simp only [numericFeatureSources, List.mem_cons, List.not_mem_nil,
    or_false] at hxs
  rcases hxs with rfl | rfl | rfl | rfl | rfl | rfl | rfl | rfl | rfl |
    rfl | rfl | rfl | rfl | rfl | rfl <;>
    simp [hage, hllm, hherb, hise, hfse, hianx, hfanx, hal, hbe, hhr,
      hscr, hfix, hfixd, hpup, hblink]

theorem list_sq_sum_nonneg (xs : List ℚ) (m : ℚ) :
    0 ≤ (xs.map (fun x => (x - m) ^ 2)).sum := by
  induction xs with
  | nil => simp
  | cons a l ih =>
    simp only [List.map_cons, List.sum_cons]
    exact add_nonneg (sq_nonneg _) ih

theorem list_sq_sum_eq_zero (xs : List ℚ) (m : ℚ)
    (h : (xs.map (fun x => (x - m) ^ 2)).sum = 0) : ∀ x ∈ xs, x = m := by
  induction xs with
  | nil => simp
  | cons a l ih =>
    simp only [List.map_cons, List.sum_cons] at h
    have ha := sq_nonneg (a - m)
    have hl := list_sq_sum_nonneg l m
    intro x hx
    rcases List.mem_cons.mp hx with rfl | hxl
    · have hx0 : (x - m) ^ 2 = 0 := by linarith
      have := pow_eq_zero_iff (two_ne_zero) |>.mp hx0
      exact sub_eq_zero.mp this
    · exact ih (by linarith) x hxl

theorem standardScale_of_popVar_zero (rt : ℚ → ℚ) (xs : List ℚ)
    (hx : xs ≠ []) (hv : popVar xs = 0) :
    standardScale rt xs = xs.map (fun _ => (0 : ℚ)) := by
  have hn : (xs.length : ℚ) ≠ 0 := by
    exact_mod_cast (List.length_pos.mpr hx).ne'
  have hsum : (xs.map (fun x => (x - colMean xs) ^ 2)).sum = 0 := by
    unfold popVar at hv
    rcases div_eq_zero_iff.mp hv with h | h
    · exact h
    · exact absurd h hn
  have hall := list_sq_sum_eq_zero xs (colMean xs) hsum
  simp only [standardScale, hv, if_pos]
  apply List.map_congr_left
  intro a ha
  rw [hall a ha]
  simp

/-- Amended C6: on every rectangular table with at least one row (on the
0-row generated table `preprocess_data` instead raises the zero-sample
DataShape error), the returned table has the same number of rows; each
numeric feature column is standardized to mean 0 and unit (`ddof = 0`)
variance exactly when its source column is non-constant (with the
square-root oracle exact there), while a constant source column is
scaled to all zeros (standard deviation 0, not 1). -/
theorem preprocess_data_rows_standardized (rt : ℚ → ℚ) (t : Table) (n : ℕ)
    (hrows : t.Nrows n) (hn : 0 < n)
    (hrt : ∀ xs ∈ numericFeatureSources t, popVar xs ≠ 0 →
      rt (popVar xs) * rt (popVar xs) = popVar xs) :
    preprocess_data rt t = Except.ok (preprocess_core rt t) ∧
    (preprocess_core rt t).Nrows n ∧
    numericFeatureCols (preprocess_core rt t) =
      (numericFeatureSources t).map (standardScale rt) ∧
    (∀ xs ∈ numericFeatureSources t, popVar xs ≠ 0 →
      colMean (standardScale rt xs) = 0 ∧
      popVar (standardScale rt xs) = 1) ∧
    (∀ xs ∈ numericFeatureSources t, popVar xs = 0 →
      standardScale rt xs = xs.map (fun _ => (0 : ℚ))) := by
  have hlen := numericFeatureSources_length t n hrows
  have hage : t.age.length = n := hrows.2.1
  refine ⟨?_, ?_, rfl, ?_, ?_⟩
  · unfold preprocess_data
    rw [if_neg (by omega)]
  · obtain ⟨hpid, hage2, hgen, hpe, hllm, hherb, hise, hfse, hianx, hfanx,
      herr, hct, hperf, hal, hbe, hhr, hscr, hfix, hfixd, hpup, hblink⟩ :=
      hrows
    simp only [ProcessedTable.Nrows, preprocess_core, standardScale_length,
      List.length_map]
    exact ⟨hage2, hllm, hherb, hise, hfse, hianx, hfanx, hal, hbe, hhr,
      hscr, hfix, hfixd, hpup, hblink, hgen, hgen, hgen, hpe, hpe, hpe,
      hperf⟩
  · intro xs hxs hv
    have hne : xs ≠ [] := by
      have := hlen xs hxs
      rw [← List.length_pos]
      omega
    exact ⟨colMean_standardScale rt xs hne,
      popVar_standardScale rt xs hne hv (hrt xs hxs hv)⟩
  · intro xs hxs hv
    have hne : xs ≠ [] := by
      have := hlen xs hxs
      rw [← List.length_pos]
      omega
    exact standardScale_of_popVar_zero rt xs hne hv

/-- A small concrete 2-row table whose numeric columns all have values
`{0, 2}` (mean 1, population variance 1, so the identity is an exact
square root of each variance). -/
def cTab : Table where
  participantID := [1, 2]
  age := [0, 2]
  gender := [Gender.Male, Gender.Female]
  programmingExperience := [ProgExp.Beginner, ProgExp.Advanced]
  llmUsage := [0, 2]
  herbalBlend := [0, 2]
  initialSelfEfficacy := [0, 2]
  finalSelfEfficacy := [0, 2]
  initialAnxiety := [0, 2]
  finalAnxiety := [0, 2]
  errorsIdentified := [0, 2]
  completionTime := [0, 2]
  performance := [7, 8]
  eegAlpha := [0, 2]
  eegBeta := [0, 2]
  ecgHR := [0, 2]
  edaSCR := [0, 2]
  pogFixations := [0, 2]
  pogFixationDuration := [0, 2]
  pogPupilDiameter := [0, 2]
  pogBlinkRate := [0, 2]

/-- Counterexample to claim C6: two generator-reachable inputs falsify
it as stated.  At count 0 the generator returns the empty table and
`preprocess_data` raises scikit-learn's zero-sample error instead of
returning a table; and on the 4-row generated table of the `trivRNG` run
the constant `Age` column is scaled to all zeros, whose standard
deviation is 0, not ≈ 1. -/
theorem preprocess_data_empty_raises_constant_flattens :
    (simulate_data trivRNG 0 42 0).1 = Except.ok (trivTable 0) ∧
    preprocess_data id (trivTable 0) = Except.error PrepErr.zeroSamples ∧
    (simulate_data trivRNG 4 42 0).1 = Except.ok (trivTable 4) ∧
    preprocess_data id (trivTable 4) =
      Except.ok (preprocess_core id (trivTable 4)) ∧
    (preprocess_core id (trivTable 4)).age ∈
      numericFeatureCols (preprocess_core id (trivTable 4)) ∧
    popVar (preprocess_core id (trivTable 4)).age = 0 :=
  ⟨by with_unfolding_all rfl, by with_unfolding_all rfl,
   by with_unfolding_all rfl, by with_unfolding_all rfl,
   by with_unfolding_all decide, by with_unfolding_all decide⟩

/-- Witness for the amended C6 on `cTab` (2 rows, every numeric source
column non-constant with variance 1, so the identity is an exact square
root of it). -/
theorem preprocess_data_rows_standardized_witness :
    preprocess_data id cTab = Except.ok (preprocess_core id cTab) ∧
    (preprocess_core id cTab).Nrows 2 ∧
    colMean (standardScale id (cTab.age.map (fun (i : ℤ) => (i : ℚ)))) = 0 ∧
    popVar (standardScale id (cTab.age.map (fun (i : ℤ) => (i : ℚ)))) = 1 :=
  have h := preprocess_data_rows_standardized id cTab 2
    (by with_unfolding_all decide) (by decide) (by with_unfolding_all decide)
  have hcol := h.2.2.2.1 (cTab.age.map (fun (i : ℤ) => (i : ℚ)))
    (by with_unfolding_all decide) (by with_unfolding_all decide)
  ⟨h.1, h.2.1, hcol.1, hcol.2⟩

/-- Claim C7: the preprocessed table has no `ParticipantID`,
`ErrorsIdentified` or `CompletionTime` column, has a `Performance`
column, and every table `preprocess_data` returns carries the input's
`Performance` column through unchanged (dropped from the feature set at
line 303, concatenated back at line 309, never standardized). -/
theorem preprocess_data_drops_and_passthrough :
    (ProcessedTable.columns.contains "ParticipantID") = false ∧
    (ProcessedTable.columns.contains "ErrorsIdentified") = false ∧
    (ProcessedTable.columns.contains "CompletionTime") = false ∧
    (ProcessedTable.columns.contains "Performance") = true ∧
    (∀ (rt : ℚ → ℚ) (t : Table),
      (preprocess_core rt t).performance = t.performance) ∧
    (∀ (rt : ℚ → ℚ) (t : Table) (p : ProcessedTable),
      preprocess_data rt t = Except.ok p →
        p.performance = t.performance) := by
  refine ⟨by decide, by decide, by decide, by decide, fun _ _ => rfl, ?_⟩
  intro rt t p hp
  unfold preprocess_data at hp
  split at hp
  · exact Except.noConfusion hp
  · simp only [Except.ok.injEq] at hp
    rw [← hp]
    rfl

/-- Witness for C7 at `cTab`. -/
theorem preprocess_data_drops_and_passthrough_witness :
    (preprocess_core id cTab).performance = cTab.performance :=
  preprocess_data_drops_and_passthrough.2.2.2.2.2 id cTab
    (preprocess_core id cTab) (by with_unfolding_all rfl)

/-- A table whose `LLMUsage` column is constant 1: its design matrix has
the `LLMUsage` column identical to the intercept column, the textbook
rank-deficient case. -/
def constLLMTable : Table :=
  { cTab with llmUsage := [1, 1] }

/-- A concrete OLS backend (the abstract results type instantiated at
`Unit`), enough to observe the error behavior of the wrapper. -/
def unitOLS : OLSBackend Unit :=
  ⟨fun _ _ => ()⟩

/-- Counterexample to claim C8: on a table whose design matrix is
rank-deficient (the `LLMUsage` column equals the intercept column in
every row), `perform_regression_analysis` still returns a successful
fit — statsmodels' default pinv-based `OLS.fit` never refuses a
rank-deficient design — so no `FitError` distinguishes this case. -/
theorem perform_regression_analysis_ok_on_rank_deficient :
    ((designMatrix constLLMTable).all fun r => r.getD 1 0 == r.getD 0 0) =
      true ∧
    perform_regression_analysis unitOLS constLLMTable = Except.ok () :=
  ⟨by with_unfolding_all decide, rfl⟩

/-- Amended C8: `perform_regression_analysis` contains no rank check and
statsmodels' pinv-based OLS is total, so the call returns a (possibly
degenerate) fitted result for every input table, rank-deficient or not;
it never signals a `FitError`. -/
theorem perform_regression_analysis_total {α : Type} (b : OLSBackend α)
    (t : Table) : (perform_regression_analysis b t).isOk = true :=
  rfl

/-- Claim C9: when the R IPMA backend is unavailable, or its invocation
raises, `run_IPMA_in_r` returns the empty result (lines 62-64 and
73-77) and propagates no exception. -/
theorem run_IPMA_in_r_soft_degrade {δ ρ φ : Type} (b : IpmaBackend δ ρ φ)
    (data : Table) (x_columns : List String) (y_column : String) :
    (b.available = none →
      run_IPMA_in_r b data x_columns y_column = Except.ok none) ∧
    (∀ ipmaCall e, b.available = some ipmaCall →
      ipmaCall (b.py2rpy data) (ipmaFormula y_column x_columns) =
        Except.error e →
      run_IPMA_in_r b data x_columns y_column = Except.ok none) := by
  constructor
  · intro h
    simp [run_IPMA_in_r, h]
  · intro ipmaCall e hav herr
    simp [run_IPMA_in_r, hav, herr]

/-- An IPMA boundary whose R package import failed (`IPMA_r is None`). -/
def unavailableIpma : IpmaBackend Unit Unit Unit :=
  ⟨none, fun _ => (), fun _ _ => Except.ok ()⟩

/-- An IPMA boundary whose `IPMA_r.IPMA` call raises. -/
def failingIpma : IpmaBackend Unit Unit Unit :=
  ⟨some fun _ _ => Except.error "IPMA error", fun _ => (),
    fun _ _ => Except.ok ()⟩

/-- Witness for C9 on both failure modes. -/
theorem run_IPMA_in_r_soft_degrade_witness :
    run_IPMA_in_r unavailableIpma cTab ["LLMUsage"] "Performance" =
      Except.ok none ∧
    run_IPMA_in_r failingIpma cTab ["LLMUsage"] "Performance" =
      Except.ok none :=
  ⟨(run_IPMA_in_r_soft_degrade unavailableIpma cTab ["LLMUsage"]
      "Performance").1 rfl,
   (run_IPMA_in_r_soft_degrade failingIpma cTab ["LLMUsage"]
      "Performance").2 _ "IPMA error" rfl rfl⟩

/-- Claim C10: whenever the SEM model was constructed but `model.fit`
raises, `perform_sem_ipma` returns `(None, None)` (the cause is printed,
line 133) and lets no exception past its boundary (lines 130-134). -/
theorem perform_sem_ipma_fit_failure {μ ρ : Type} (b : SemBackend μ ρ)
    (data : Table) (model_specification : String) (model : μ) (e : String)
    (hmk : b.mkModel model_specification = Except.ok model)
    (hfit : b.fit model data = Except.error e) :
    perform_sem_ipma b data model_specification = Except.ok (none, none) := by
  simp [perform_sem_ipma, hmk, hfit]

/-- A SEM boundary whose model constructor succeeds and whose fit
raises. -/
def failingSem : SemBackend Unit Unit :=
  ⟨fun _ => Except.ok (), fun _ _ => Except.error "SEM Fit Error",
    fun _ => Except.ok ()⟩

/-- Witness for C10. -/
theorem perform_sem_ipma_fit_failure_witness :
    perform_sem_ipma failingSem cTab "Performance ~ LLMUsage" =
      Except.ok (none, none) :=
  perform_sem_ipma_fit_failure failingSem cTab "Performance ~ LLMUsage"
    () "SEM Fit Error" rfl rfl
